import Mathlib

/-!
Verification development for the pipeline orchestration core of the
clipinsightAI repository: the job state machine (state-transition table and
validators), the Job/Run/Step lifecycle operations, the retry executor with
exponential backoff, and the top-level pipeline orchestrator.

Every definition below is a shallow embedding of a concrete function of the
source: the state machine constants and helpers from the job pipeline types
module, the lifecycle operations from the state machine module, the
regenerate API route, and the processVideoJob orchestration loop from the
video-processing trigger job. Persistence calls are modelled as pure state
updates; database errors and the Supabase client are out of scope, so reads
and writes always succeed. Timestamps are modelled as an abstract clock value
passed in by the caller, and durations and stage outputs, which no property
below depends on, are elided.
-/

-- ============================================================================
-- ENUMERATED TYPES (from the job pipeline types module and database types)
-- ============================================================================

/-- The fifteen job statuses of the JobStatus database type. -/
inductive JobStatus where
  | RECEIVED
  | VALIDATED
  | INGESTED
  | TRANSCRIBED
  | INSIGHTS
  | DRAFTED
  | REVIEWED
  | DELIVERED
  | STORED
  | ANALYTICS_LOGGED
  | FAILED_VALIDATION
  | BLOCKED_ENTITLEMENT
  | REQUIRES_MANUAL_REVIEW
  | NEEDS_USER_INPUT
  | FAILED
deriving DecidableEq, Repr, Fintype

/-- Run statuses of the RunStatus database type. -/
inductive RunStatus where
  | PENDING
  | RUNNING
  | SUCCEEDED
  | FAILED
  | CANCELLED
deriving DecidableEq, Repr, Fintype

/-- The seven pipeline stages of the PipelineStep database type. -/
inductive PipelineStep where
  | VALIDATION
  | INGESTION
  | ASR
  | INSIGHTS
  | DRAFTING
  | QA
  | DELIVERY
deriving DecidableEq, Repr, Fintype

/-- Step statuses of the StepStatus database type. -/
inductive StepStatus where
  | STARTED
  | SUCCEEDED
  | FAILED
  | RETRYING
deriving DecidableEq, Repr, Fintype

/-- The closed set of error codes (the ERROR_CODES constant). -/
inductive ErrorCode where
  | INVALID_INPUT
  | UNSUPPORTED_FORMAT
  | FILE_TOO_LARGE
  | DURATION_EXCEEDED
  | INVALID_URL
  | QUOTA_EXCEEDED
  | PLAN_LIMIT_REACHED
  | FEATURE_NOT_ENABLED
  | UPLOAD_FAILED
  | TRANSCRIPTION_FAILED
  | GENERATION_FAILED
  | RATE_LIMITED
  | TIMEOUT
  | NETWORK_ERROR
  | API_QUOTA_EXCEEDED
  | API_KEY_INVALID
  | API_UNAVAILABLE
  | LOW_QUALITY_TRANSCRIPT
  | CONTENT_POLICY_VIOLATION
  | HIGH_RISK_CONTENT
  | INTERNAL_ERROR
  | UNKNOWN_ERROR
deriving DecidableEq, Repr, Fintype

/-- Literal name of a job status, as it appears in the TypeScript string
union; used to build the error messages of the lifecycle operations. -/
def jobStatusName : JobStatus → String
  | JobStatus.RECEIVED => "RECEIVED"
  | JobStatus.VALIDATED => "VALIDATED"
  | JobStatus.INGESTED => "INGESTED"
  | JobStatus.TRANSCRIBED => "TRANSCRIBED"
  | JobStatus.INSIGHTS => "INSIGHTS"
  | JobStatus.DRAFTED => "DRAFTED"
  | JobStatus.REVIEWED => "REVIEWED"
  | JobStatus.DELIVERED => "DELIVERED"
  | JobStatus.STORED => "STORED"
  | JobStatus.ANALYTICS_LOGGED => "ANALYTICS_LOGGED"
  | JobStatus.FAILED_VALIDATION => "FAILED_VALIDATION"
  | JobStatus.BLOCKED_ENTITLEMENT => "BLOCKED_ENTITLEMENT"
  | JobStatus.REQUIRES_MANUAL_REVIEW => "REQUIRES_MANUAL_REVIEW"
  | JobStatus.NEEDS_USER_INPUT => "NEEDS_USER_INPUT"
  | JobStatus.FAILED => "FAILED"

-- ============================================================================
-- STATE MACHINE (JOB_STATE_TRANSITIONS and its validators)
-- ============================================================================

/-- The JOB_STATE_TRANSITIONS record: maps each status to the array of valid
next statuses, row for row as in the source. -/
def JOB_STATE_TRANSITIONS : JobStatus → List JobStatus
  | JobStatus.RECEIVED => [JobStatus.VALIDATED, JobStatus.FAILED_VALIDATION]
  | JobStatus.VALIDATED => [JobStatus.INGESTED, JobStatus.BLOCKED_ENTITLEMENT]
  | JobStatus.INGESTED => [JobStatus.TRANSCRIBED, JobStatus.FAILED]
  | JobStatus.TRANSCRIBED => [JobStatus.INSIGHTS, JobStatus.NEEDS_USER_INPUT, JobStatus.FAILED]
  | JobStatus.INSIGHTS => [JobStatus.DRAFTED, JobStatus.FAILED]
  | JobStatus.DRAFTED => [JobStatus.REVIEWED, JobStatus.FAILED]
  | JobStatus.REVIEWED => [JobStatus.DELIVERED, JobStatus.REQUIRES_MANUAL_REVIEW, JobStatus.FAILED]
  | JobStatus.DELIVERED => [JobStatus.STORED, JobStatus.FAILED]
  | JobStatus.STORED => [JobStatus.ANALYTICS_LOGGED, JobStatus.FAILED]
  | JobStatus.ANALYTICS_LOGGED => []
  | JobStatus.FAILED_VALIDATION => []
  | JobStatus.BLOCKED_ENTITLEMENT => []
  | JobStatus.REQUIRES_MANUAL_REVIEW => [JobStatus.DELIVERED, JobStatus.FAILED]
  | JobStatus.NEEDS_USER_INPUT => [JobStatus.TRANSCRIBED, JobStatus.FAILED]
  | JobStatus.FAILED => []

/-- canTransitionTo: membership of the target in the transition row of the
current status. -/
def canTransitionTo (currentStatus targetStatus : JobStatus) : Bool :=
  (JOB_STATE_TRANSITIONS currentStatus).contains targetStatus

/-- The TERMINAL_STATES constant. -/
def TERMINAL_STATES : List JobStatus :=
  [JobStatus.ANALYTICS_LOGGED, JobStatus.FAILED_VALIDATION,
   JobStatus.BLOCKED_ENTITLEMENT, JobStatus.FAILED]

/-- isTerminalState: membership in TERMINAL_STATES. -/
def isTerminalState (status : JobStatus) : Bool :=
  TERMINAL_STATES.contains status

/-- The USER_ACTION_STATES constant. -/
def USER_ACTION_STATES : List JobStatus :=
  [JobStatus.REQUIRES_MANUAL_REVIEW, JobStatus.NEEDS_USER_INPUT]

/-- requiresUserAction: membership in USER_ACTION_STATES. -/
def requiresUserAction (status : JobStatus) : Bool :=
  USER_ACTION_STATES.contains status

/-- The PIPELINE_STEP_ORDER constant: fixed stage execution order. -/
def PIPELINE_STEP_ORDER : List PipelineStep :=
  [PipelineStep.VALIDATION, PipelineStep.INGESTION, PipelineStep.ASR,
   PipelineStep.INSIGHTS, PipelineStep.DRAFTING, PipelineStep.QA,
   PipelineStep.DELIVERY]

/-- The STEP_TO_STATUS record: job status reached when a stage succeeds. -/
def STEP_TO_STATUS : PipelineStep → JobStatus
  | PipelineStep.VALIDATION => JobStatus.VALIDATED
  | PipelineStep.INGESTION => JobStatus.INGESTED
  | PipelineStep.ASR => JobStatus.TRANSCRIBED
  | PipelineStep.INSIGHTS => JobStatus.INSIGHTS
  | PipelineStep.DRAFTING => JobStatus.DRAFTED
  | PipelineStep.QA => JobStatus.REVIEWED
  | PipelineStep.DELIVERY => JobStatus.DELIVERED

/-- The RETRYABLE_ERRORS constant. -/
def RETRYABLE_ERRORS : List ErrorCode :=
  [ErrorCode.UPLOAD_FAILED, ErrorCode.TRANSCRIPTION_FAILED,
   ErrorCode.GENERATION_FAILED, ErrorCode.RATE_LIMITED,
   ErrorCode.TIMEOUT, ErrorCode.NETWORK_ERROR]

/-- isRetryableError: membership in RETRYABLE_ERRORS. -/
def isRetryableError (errorCode : ErrorCode) : Bool :=
  RETRYABLE_ERRORS.contains errorCode

-- ============================================================================
-- RETRY CONFIGURATION
-- ============================================================================

/-- The RetryConfig shape. -/
structure RetryConfig where
  max_attempts : Nat
  base_delay_ms : Nat
  max_delay_ms : Nat
  exponential_base : Nat
deriving DecidableEq, Repr

/-- The DEFAULT_RETRY_CONFIG constant. -/
def DEFAULT_RETRY_CONFIG : RetryConfig :=
  { max_attempts := 3, base_delay_ms := 1000, max_delay_ms := 30000,
    exponential_base := 2 }

/-- calculateRetryDelay with an explicit config argument:
min(base * exponential_base ^ (attempt - 1), max_delay). The source computes
the power over floating point numbers; for the integer attempts at which it
is called the value is the natural number computed here. -/
def calculateRetryDelayWith (config : RetryConfig) (attempt : Nat) : Nat :=
  min (config.base_delay_ms * config.exponential_base ^ (attempt - 1))
    config.max_delay_ms

/-- calculateRetryDelay at the default config, as the orchestrator calls it. -/
def calculateRetryDelay (attempt : Nat) : Nat :=
  calculateRetryDelayWith DEFAULT_RETRY_CONFIG attempt

-- ============================================================================
-- LIFECYCLE OPERATIONS (state machine module)
-- ============================================================================

/-- canRerun from the state machine module, as a function of the only Job
field it inspects, the status: terminal and not BLOCKED_ENTITLEMENT, or one
of the two user-action statuses. -/
def canRerun (status : JobStatus) : Bool :=
  (isTerminalState status && !(status == JobStatus.BLOCKED_ENTITLEMENT))
    || status == JobStatus.NEEDS_USER_INPUT
    || status == JobStatus.REQUIRES_MANUAL_REVIEW

/-- The fields of a freshly inserted job_runs row that the properties below
observe. -/
structure JobRunRec where
  run_number : Nat
  status : RunStatus
deriving DecidableEq, Repr

/-- createJobRun: rejects when the job status is terminal, otherwise inserts
a new run with run_number = existing run count + 1 and status PENDING. The
generation-contract layering it also performs is opaque data to the
orchestration core and is elided. -/
def createJobRun (jobStatus : JobStatus) (existingRunCount : Nat) :
    Except String JobRunRec :=
  if isTerminalState jobStatus then
    Except.error ("Cannot create run for job in terminal state: "
      ++ jobStatusName jobStatus)
  else
    Except.ok { run_number := existingRunCount + 1, status := RunStatus.PENDING }

/-- The value of a successful Except, none on error. -/
def okValue {α : Type} (e : Except String α) : Option α :=
  match e with
  | Except.ok a => some a
  | Except.error _ => none

deriving instance DecidableEq for Except

/-- The invalid-transition message raised by updateJobStatus, listing the
permitted targets of the current status. -/
def invalidTransitionMessage (current target : JobStatus) : String :=
  "Invalid state transition: " ++ jobStatusName current ++ " -> "
    ++ jobStatusName target ++ ". Valid transitions: "
    ++ String.intercalate (", ")
        ((JOB_STATE_TRANSITIONS current).map jobStatusName)

/-- updateJobStatus: validates the transition against the table and either
persists the new status or raises the invalid-transition error. The job is
assumed to exist (the not-found error is a persistence concern). -/
def updateJobStatus (current newStatus : JobStatus) : Except String JobStatus :=
  if canTransitionTo current newStatus then
    Except.ok newStatus
  else
    Except.error (invalidTransitionMessage current newStatus)

/-- The job_runs fields read and written by updateRunStatus. Timestamps are an
abstract clock value supplied by the caller. -/
structure JobRunState where
  status : RunStatus
  started_at : Option Nat
  finished_at : Option Nat
  error_message : Option String
deriving DecidableEq, Repr

/-- A run as freshly created: PENDING with no timestamps. -/
def initialRunState : JobRunState :=
  { status := RunStatus.PENDING, started_at := none, finished_at := none,
    error_message := none }

/-- updateRunStatus: unconditionally sets the status; sets started_at when
called with RUNNING and no error message; sets finished_at when called with
any of the three finishing statuses; stores the error message when one is
given. No check of the current status is performed. -/
def updateRunStatus (r : JobRunState) (now : Nat) (status : RunStatus)
    (errorMessage : Option String) : JobRunState :=
  let r1 := { r with status := status }
  let r2 :=
    if status == RunStatus.RUNNING && errorMessage.isNone then
      { r1 with started_at := some now }
    else r1
  let r3 :=
    if status == RunStatus.SUCCEEDED || status == RunStatus.FAILED
        || status == RunStatus.CANCELLED then
      { r2 with finished_at := some now }
    else r2
  if errorMessage.isSome then { r3 with error_message := errorMessage } else r3

/-- The job-status effect of the regenerate route (POST handler of the runs
API route): after the access checks it requires canRerun, then resets the
stored job status directly to RECEIVED through the persistence client with no
transition validation, then calls createJobRun. Returns the stored job status
together with the created run. -/
def regenerateRunPost (jobStatus : JobStatus) (existingRunCount : Nat) :
    Except String (JobStatus × JobRunRec) :=
  if !canRerun jobStatus then
    Except.error ("Job cannot be regenerated in current state")
  else
    match createJobRun JobStatus.RECEIVED existingRunCount with
    | Except.error m => Except.error m
    | Except.ok run => Except.ok (JobStatus.RECEIVED, run)

-- ============================================================================
-- ORCHESTRATOR (processVideoJob in the video-processing trigger job)
-- ============================================================================

/-- The StepResult fields the orchestration loop reads. Stage outputs are
opaque to the core; of the metrics, only the token and cost totals the loop
accumulates are kept (absent metrics are 0). -/
structure StepResult where
  success : Bool
  step : PipelineStep
  duration_ms : Nat
  error_code : Option ErrorCode
  error_message : Option String
  tokens_used : Nat
  cost_usd : Nat
deriving DecidableEq, Repr

/-- Behaviour of one invocation of a stage handler: it either throws or
returns a StepResult. -/
inductive HandlerOutcome where
  | throws (message : String)
  | returns (result : StepResult)
deriving DecidableEq, Repr

/-- A family of stage handlers, indexed by stage and by the attempt number at
which the orchestrator invokes them. -/
def Handlers : Type := PipelineStep → Nat → HandlerOutcome

/-- The run_steps fields the orchestration loop writes. -/
structure RunStepRec where
  step : PipelineStep
  status : StepStatus
  attempt : Nat
  error_code : Option ErrorCode
  error_detail : Option String
deriving DecidableEq, Repr

/-- The persistent and in-memory state the orchestrator manipulates during one
run: the stored job status, the stored run row, the run-step row of the stage
currently executing, the log of every run-step write in order, the trace of
handler invocations (stage, attempt), the backoff delays slept, and the
accumulated context totals. -/
structure PipeState where
  jobStatus : JobStatus
  run : JobRunState
  currentStep : RunStepRec
  stepLog : List RunStepRec
  invocations : List (PipelineStep × Nat)
  waits : List Nat
  totalTokens : Nat
  totalCost : Nat
deriving DecidableEq, Repr

/-- A run-step write: replaces the current step row and appends the written
value to the log. -/
def logStep (st : PipeState) (r : RunStepRec) : PipeState :=
  { st with currentStep := r, stepLog := st.stepLog ++ [r] }

/-- createRunStep at the head of each stage: a fresh row with status STARTED
and attempt 1. -/
def createRunStep (st : PipeState) (step : PipelineStep) : PipeState :=
  logStep st { step := step, status := StepStatus.STARTED, attempt := 1,
               error_code := none, error_detail := none }

/-- Record a backoff sleep. -/
def recordWait (st : PipeState) (delay : Nat) : PipeState :=
  { st with waits := st.waits ++ [delay] }

/-- Record one handler invocation. -/
def recordInvocation (st : PipeState) (step : PipelineStep) (attempt : Nat) :
    PipeState :=
  { st with invocations := st.invocations ++ [(step, attempt)] }

/-- The failure-status mapping of the orchestrator: failing stage VALIDATION
first, then the three special error codes, else FAILED. -/
def computeFailureStatus (step : PipelineStep) (errorCode : ErrorCode) :
    JobStatus :=
  if step == PipelineStep.VALIDATION then JobStatus.FAILED_VALIDATION
  else if errorCode == ErrorCode.QUOTA_EXCEEDED then JobStatus.BLOCKED_ENTITLEMENT
  else if errorCode == ErrorCode.HIGH_RISK_CONTENT then JobStatus.REQUIRES_MANUAL_REVIEW
  else if errorCode == ErrorCode.LOW_QUALITY_TRANSCRIPT then JobStatus.NEEDS_USER_INPUT
  else JobStatus.FAILED

/-- Result of one iteration of the try block inside the retry loop: the loop
breaks to the next stage, continues into the next attempt, returns a
definitive failure to the caller, or an exception reaches the catch block. -/
inductive TryStep where
  | broke (st : PipeState)
  | continueLoop (st : PipeState)
  | returned (code : ErrorCode) (msg : Option String) (st : PipeState)
  | caught (msg : String) (st : PipeState)
deriving Repr

/-- One execution of the try block of the retry loop, given what the handler
invocation did. Model of the loop body: on success the step row is marked
SUCCEEDED, then updateJobStatus moves the job to the target status of the
stage and the metrics are accumulated; on failure the error code defaults to
UNKNOWN_ERROR, and either the step row is marked RETRYING with the attempt
incremented and a backoff is slept, or the step row is marked FAILED, the
failure status is computed and applied through updateJobStatus, and the run
is marked FAILED with the error message. Any exception raised by
updateJobStatus lands in the catch block, like in the source where these
awaits sit inside the try. -/
def tryBody (step : PipelineStep) (attempt : Nat) (st : PipeState) :
    HandlerOutcome → TryStep
  | HandlerOutcome.throws m => TryStep.caught m st
  | HandlerOutcome.returns result =>
    if result.success then
      let st := logStep st { st.currentStep with status := StepStatus.SUCCEEDED }
      match updateJobStatus st.jobStatus (STEP_TO_STATUS step) with
      | Except.error m => TryStep.caught m st
      | Except.ok s =>
        let st := { st with
          jobStatus := s,
          totalTokens := st.totalTokens + result.tokens_used,
          totalCost := st.totalCost + result.cost_usd }
        TryStep.broke st
    else
      let errorCode := result.error_code.getD ErrorCode.UNKNOWN_ERROR
      if isRetryableError errorCode = true
          ∧ attempt < DEFAULT_RETRY_CONFIG.max_attempts then
        let st := logStep st { st.currentStep with
          status := StepStatus.RETRYING, attempt := attempt + 1,
          error_code := some errorCode, error_detail := result.error_message }
        let st := recordWait st (calculateRetryDelay attempt)
        TryStep.continueLoop st
      else
        let st := logStep st { st.currentStep with
          status := StepStatus.FAILED,
          error_code := some errorCode, error_detail := result.error_message }
        match updateJobStatus st.jobStatus (computeFailureStatus step errorCode) with
        | Except.error m => TryStep.caught m st
        | Except.ok s =>
          let st := { st with jobStatus := s }
          let st := { st with
            run := updateRunStatus st.run 0 RunStatus.FAILED result.error_message }
          TryStep.returned errorCode result.error_message st

/-- Outcome of the retry loop for one stage. fellThrough is the loop exiting
by its condition (attempt above max) without a break or return; it is
unreachable from attempt 1 but kept for fidelity to the while loop. -/
inductive StageOutcome where
  | success
  | fellThrough
  | failure (failedStep : PipelineStep) (code : ErrorCode) (msg : Option String)
deriving DecidableEq, Repr

/-- The retry while-loop for one stage, with the remaining loop iterations as
fuel (the loop runs while attempt is at most max_attempts, so from attempt 1
the fuel is max_attempts). The catch block retries with a backoff while
attempt is below max_attempts; once exhausted it marks the step row FAILED
with INTERNAL_ERROR, drives the job to FAILED, marks the run FAILED and
returns — and an exception raised by that very updateJobStatus call
propagates out, carrying the state at the point of escape. -/
def runAttempts (h : Handlers) (step : PipelineStep) :
    Nat → Nat → PipeState → Except (String × PipeState) (StageOutcome × PipeState)
  | _, 0, st => Except.ok (StageOutcome.fellThrough, st)
  | attempt, fuel + 1, st =>
    match tryBody step attempt (recordInvocation st step attempt) (h step attempt) with
    | TryStep.broke st => Except.ok (StageOutcome.success, st)
    | TryStep.returned code msg st =>
      Except.ok (StageOutcome.failure step code msg, st)
    | TryStep.continueLoop st => runAttempts h step (attempt + 1) fuel st
    | TryStep.caught m st =>
      if attempt < DEFAULT_RETRY_CONFIG.max_attempts then
        runAttempts h step (attempt + 1) fuel
          (recordWait st (calculateRetryDelay attempt))
      else
        let st := logStep st { st.currentStep with
          status := StepStatus.FAILED,
          error_code := some ErrorCode.INTERNAL_ERROR, error_detail := some m }
        match updateJobStatus st.jobStatus JobStatus.FAILED with
        | Except.error m2 => Except.error (m2, st)
        | Except.ok s =>
          let st := { st with jobStatus := s }
          let st := { st with
            run := updateRunStatus st.run 0 RunStatus.FAILED (some m) }
          Except.ok
            (StageOutcome.failure step ErrorCode.INTERNAL_ERROR (some m), st)

/-- The value returned by the orchestrator run function. -/
inductive RunReturn where
  | completed (total_tokens : Nat) (total_cost : Nat)
  | failed (failed_step : PipelineStep) (code : ErrorCode) (msg : Option String)
deriving DecidableEq, Repr

/-- The stage for-loop of the orchestrator: each stage gets a fresh run-step
row and runs the retry loop; a definitive stage failure returns immediately
(no further stage executes); after the last stage the job is moved
DELIVERED to STORED to ANALYTICS_LOGGED unconditionally (these two calls sit
outside any try, so an invalid transition there propagates) and the run is
marked SUCCEEDED. -/
def runPipeline (h : Handlers) :
    List PipelineStep → PipeState → Except (String × PipeState) (RunReturn × PipeState)
  | [], st =>
    match updateJobStatus st.jobStatus JobStatus.STORED with
    | Except.error m => Except.error (m, st)
    | Except.ok s1 =>
      match updateJobStatus s1 JobStatus.ANALYTICS_LOGGED with
      | Except.error m => Except.error (m, { st with jobStatus := s1 })
      | Except.ok s2 =>
        let st := { st with jobStatus := s2 }
        let st := { st with
          run := updateRunStatus st.run 0 RunStatus.SUCCEEDED none }
        Except.ok (RunReturn.completed st.totalTokens st.totalCost, st)
  | step :: rest, st =>
    match runAttempts h step 1 DEFAULT_RETRY_CONFIG.max_attempts (createRunStep st step) with
    | Except.error e => Except.error e
    | Except.ok (StageOutcome.success, st) => runPipeline h rest st
    | Except.ok (StageOutcome.fellThrough, st) => runPipeline h rest st
    | Except.ok (StageOutcome.failure sp code msg, st) =>
      Except.ok (RunReturn.failed sp code msg, st)

/-- The orchestrator entry point: marks the run RUNNING and walks the fixed
stage order over a job whose stored status is initialJobStatus. -/
def processVideoJob (h : Handlers) (initialJobStatus : JobStatus) :
    Except (String × PipeState) (RunReturn × PipeState) :=
  let st : PipeState :=
    { jobStatus := initialJobStatus
      run := updateRunStatus initialRunState 0 RunStatus.RUNNING none
      currentStep := { step := PipelineStep.VALIDATION, status := StepStatus.STARTED, attempt := 1, error_code := none, error_detail := none }
      stepLog := []
      invocations := []
      waits := []
      totalTokens := 0
      totalCost := 0 }
  runPipeline h PIPELINE_STEP_ORDER st

-- ============================================================================
-- OBSERVABLES OF A RUN
-- ============================================================================

/-- Final state when the run function returned. -/
def finalState (res : Except (String × PipeState) (RunReturn × PipeState)) :
    Option PipeState :=
  match res with
  | Except.ok (_, st) => some st
  | Except.error _ => none

/-- Return value when the run function returned. -/
def runReturnOf (res : Except (String × PipeState) (RunReturn × PipeState)) :
    Option RunReturn :=
  match res with
  | Except.ok (r, _) => some r
  | Except.error _ => none

/-- State at the point an unhandled exception escaped the run function. -/
def escapedState (res : Except (String × PipeState) (RunReturn × PipeState)) :
    Option PipeState :=
  match res with
  | Except.ok _ => none
  | Except.error (_, st) => some st

/-- Message of an unhandled exception that escaped the run function. -/
def escapedMessage (res : Except (String × PipeState) (RunReturn × PipeState)) :
    Option String :=
  match res with
  | Except.ok _ => none
  | Except.error (m, _) => some m

/-- Stored job status when the run function returned. -/
def finalJobStatus (res : Except (String × PipeState) (RunReturn × PipeState)) :
    Option JobStatus :=
  (finalState res).map (fun st => st.jobStatus)

/-- Stored run status when the run function returned. -/
def finalRunStatus (res : Except (String × PipeState) (RunReturn × PipeState)) :
    Option RunStatus :=
  (finalState res).map (fun st => st.run.status)

/-- How many times the handler of a stage was invoked. -/
def invocationCount (st : PipeState) (step : PipelineStep) : Nat :=
  (st.invocations.filter (fun p => p.1 == step)).length

-- ============================================================================
-- HANDLER FAMILIES USED BY CONCRETE SCENARIOS
-- ============================================================================

/-- A successful StepResult for a stage, with no metrics. -/
def okStepResult (step : PipelineStep) : StepResult :=
  { success := true, step := step, duration_ms := 5, error_code := none,
    error_message := none, tokens_used := 0, cost_usd := 0 }

/-- A failing StepResult for a stage with the given code and message. -/
def failStepResult (step : PipelineStep) (code : ErrorCode) (msg : String) :
    StepResult :=
  { success := false, step := step, duration_ms := 5, error_code := some code,
    error_message := some msg, tokens_used := 0, cost_usd := 0 }

/-- Handlers where one target stage always fails with the given code while
every other stage succeeds. -/
def failingAt (target : PipelineStep) (code : ErrorCode) (msg : String) :
    Handlers :=
  fun step _ =>
    if step == target then HandlerOutcome.returns (failStepResult step code msg)
    else HandlerOutcome.returns (okStepResult step)

/-- Handlers that always throw the given message, at every stage. -/
def throwingHandlers (m : String) : Handlers :=
  fun _ _ => HandlerOutcome.throws m

/-- Handlers where one target stage always throws while every other stage
succeeds. -/
def throwingAt (target : PipelineStep) (m : String) : Handlers :=
  fun step _ =>
    if step == target then HandlerOutcome.throws m
    else HandlerOutcome.returns (okStepResult step)

/-- Handlers where every stage succeeds. -/
def allOkHandlers : Handlers :=
  fun step _ => HandlerOutcome.returns (okStepResult step)

-- ============================================================================
-- DEFINITIONS TAKEN FROM THE SPECIFICATION TEXT (for refinement comparison)
-- ============================================================================

/-- The transition table exactly as the specification section 4.1 enumerates
it, written from the specification words independently of
JOB_STATE_TRANSITIONS. -/
def specTransitionTable : JobStatus → List JobStatus
  | JobStatus.RECEIVED => [JobStatus.VALIDATED, JobStatus.FAILED_VALIDATION]
  | JobStatus.VALIDATED => [JobStatus.INGESTED, JobStatus.BLOCKED_ENTITLEMENT]
  | JobStatus.INGESTED => [JobStatus.TRANSCRIBED, JobStatus.FAILED]
  | JobStatus.TRANSCRIBED => [JobStatus.INSIGHTS, JobStatus.NEEDS_USER_INPUT, JobStatus.FAILED]
  | JobStatus.INSIGHTS => [JobStatus.DRAFTED, JobStatus.FAILED]
  | JobStatus.DRAFTED => [JobStatus.REVIEWED, JobStatus.FAILED]
  | JobStatus.REVIEWED => [JobStatus.DELIVERED, JobStatus.REQUIRES_MANUAL_REVIEW, JobStatus.FAILED]
  | JobStatus.DELIVERED => [JobStatus.STORED, JobStatus.FAILED]
  | JobStatus.STORED => [JobStatus.ANALYTICS_LOGGED, JobStatus.FAILED]
  | JobStatus.ANALYTICS_LOGGED => []
  | JobStatus.FAILED_VALIDATION => []
  | JobStatus.BLOCKED_ENTITLEMENT => []
  | JobStatus.REQUIRES_MANUAL_REVIEW => [JobStatus.DELIVERED, JobStatus.FAILED]
  | JobStatus.NEEDS_USER_INPUT => [JobStatus.TRANSCRIBED, JobStatus.FAILED]
  | JobStatus.FAILED => []

/-- The terminal-status precedence exactly as the specification section 4.5
words it: stage VALIDATION first, then QUOTA_EXCEEDED, HIGH_RISK_CONTENT,
LOW_QUALITY_TRANSCRIPT, else FAILED. -/
def specFailureStatus (step : PipelineStep) (errorCode : ErrorCode) : JobStatus :=
  if step = PipelineStep.VALIDATION then JobStatus.FAILED_VALIDATION
  else if errorCode = ErrorCode.QUOTA_EXCEEDED then JobStatus.BLOCKED_ENTITLEMENT
  else if errorCode = ErrorCode.HIGH_RISK_CONTENT then JobStatus.REQUIRES_MANUAL_REVIEW
  else if errorCode = ErrorCode.LOW_QUALITY_TRANSCRIPT then JobStatus.NEEDS_USER_INPUT
  else JobStatus.FAILED

-- ============================================================================
-- CONCRETE FIXTURES
-- ============================================================================

/-- A pipeline state focused on one stage, for concrete instantiations: job at
the given stored status, freshly created run, a STARTED step row, empty
traces and totals. -/
def exampleState (s : JobStatus) : PipeState :=
  { jobStatus := s
    run := initialRunState
    currentStep := { step := PipelineStep.VALIDATION, status := StepStatus.STARTED, attempt := 1, error_code := none, error_detail := none }
    stepLog := []
    invocations := []
    waits := []
    totalTokens := 0
    totalCost := 0 }

/-- A run row that already finished with FAILED. -/
def finishedRunExample : JobRunState :=
  { status := RunStatus.FAILED, started_at := some 1, finished_at := some 2,
    error_message := some ("earlier failure") }

-- ============================================================================
-- HELPER LEMMAS (shared)
-- ============================================================================

/-- Field-level description of updateRunStatus: the status is always
overwritten, started_at is set exactly on RUNNING without an error message,
finished_at is set exactly on the three finishing statuses, and the error
message is stored when given. -/
theorem updateRunStatus_fields (r : JobRunState) (now : Nat) (s : RunStatus)
    (e : Option String) :
    (updateRunStatus r now s e).status = s ∧
    (updateRunStatus r now s e).started_at =
      (if s == RunStatus.RUNNING && e.isNone then some now else r.started_at) ∧
    (updateRunStatus r now s e).finished_at =
      (if s == RunStatus.SUCCEEDED || s == RunStatus.FAILED
          || s == RunStatus.CANCELLED then some now else r.finished_at) ∧
    (updateRunStatus r now s e).error_message =
      (if e.isSome then e else r.error_message) := by
  unfold updateRunStatus
  cases e <;> cases s <;> simp

/-- The status written by updateRunStatus is the one requested. -/
theorem updateRunStatus_status (r : JobRunState) (now : Nat) (s : RunStatus)
    (e : Option String) : (updateRunStatus r now s e).status = s :=
  (updateRunStatus_fields r now s e).1

/-- The error message written by updateRunStatus. -/
theorem updateRunStatus_error_message (r : JobRunState) (now : Nat)
    (s : RunStatus) (e : Option String) :
    (updateRunStatus r now s e).error_message =
      (if e.isSome then e else r.error_message) :=
  (updateRunStatus_fields r now s e).2.2.2

/-- One retry-loop iteration on a definitive (non-retryable) StepResult
failure whose computed terminal status is a permitted transition: the step
row is marked FAILED with the code and detail, the job moves to the computed
failure status, the run is marked FAILED with the error message, and the
loop returns the failure. -/
theorem runAttempts_definitive_failure (h : Handlers) (step : PipelineStep)
    (st : PipeState) (a fuel : Nat) (r : StepResult)
    (hret : h step a = HandlerOutcome.returns r)
    (hsucc : r.success = false)
    (hnr : isRetryableError (r.error_code.getD ErrorCode.UNKNOWN_ERROR) = false)
    (hperm : canTransitionTo st.jobStatus
      (computeFailureStatus step (r.error_code.getD ErrorCode.UNKNOWN_ERROR)) = true) :
    runAttempts h step a (fuel + 1) st =
      Except.ok (StageOutcome.failure step
          (r.error_code.getD ErrorCode.UNKNOWN_ERROR) r.error_message,
        { jobStatus := computeFailureStatus step (r.error_code.getD ErrorCode.UNKNOWN_ERROR)
          run := updateRunStatus st.run 0 RunStatus.FAILED r.error_message
          currentStep := { st.currentStep with
            status := StepStatus.FAILED,
            error_code := some (r.error_code.getD ErrorCode.UNKNOWN_ERROR),
            error_detail := r.error_message }
          stepLog := st.stepLog ++ [{ st.currentStep with
            status := StepStatus.FAILED,
            error_code := some (r.error_code.getD ErrorCode.UNKNOWN_ERROR),
            error_detail := r.error_message }]
          invocations := st.invocations ++ [(step, a)]
          waits := st.waits
          totalTokens := st.totalTokens
          totalCost := st.totalCost }) := by
  simp only [runAttempts]
  rw [hret]
  simp only [tryBody, hsucc, hnr, Bool.false_eq_true, false_and, if_false,
    recordInvocation, logStep, updateJobStatus, hperm, if_true]

/-- One retry-loop iteration whose handler invocation throws, below the
attempt cap: the catch block sleeps the backoff and the loop continues with
the attempt incremented; no step-row write happens. -/
theorem runAttempts_throw_retry (h : Handlers) (step : PipelineStep)
    (a fuel : Nat) (st : PipeState) (m : String)
    (hth : h step a = HandlerOutcome.throws m)
    (hlt : a < DEFAULT_RETRY_CONFIG.max_attempts) :
    runAttempts h step a (fuel + 1) st =
      runAttempts h step (a + 1) fuel
        (recordWait (recordInvocation st step a) (calculateRetryDelay a)) := by
  simp only [runAttempts]
  rw [hth]
  simp only [tryBody]
  rw [if_pos hlt]

/-- The retry-loop iteration at the attempt cap whose handler invocation
throws, when FAILED is a permitted transition from the current job status:
the catch block marks the step row FAILED with INTERNAL_ERROR and the thrown
message, drives the job to FAILED, marks the run FAILED and returns the
failure. -/
theorem runAttempts_throw_exhaust (h : Handlers) (step : PipelineStep)
    (fuel : Nat) (st : PipeState) (m : String)
    (hth : h step 3 = HandlerOutcome.throws m)
    (hperm : canTransitionTo st.jobStatus JobStatus.FAILED = true) :
    runAttempts h step 3 (fuel + 1) st =
      Except.ok (StageOutcome.failure step ErrorCode.INTERNAL_ERROR (some m),
        { jobStatus := JobStatus.FAILED
          run := updateRunStatus st.run 0 RunStatus.FAILED (some m)
          currentStep := { st.currentStep with
            status := StepStatus.FAILED,
            error_code := some ErrorCode.INTERNAL_ERROR,
            error_detail := some m }
          stepLog := st.stepLog ++ [{ st.currentStep with
            status := StepStatus.FAILED,
            error_code := some ErrorCode.INTERNAL_ERROR,
            error_detail := some m }]
          invocations := st.invocations ++ [(step, 3)]
          waits := st.waits
          totalTokens := st.totalTokens
          totalCost := st.totalCost }) := by
  simp only [runAttempts]
  rw [hth]
  simp only [tryBody]
  rw [if_neg (by decide)]
  simp only [recordInvocation, logStep, updateJobStatus]
  rw [if_pos (by exact hperm)]

-- ============================================================================
-- SANITY CHECK OF THE ORCHESTRATOR MODEL
-- ============================================================================

/-- Sanity check: when every stage succeeds the job walks the whole success
path to ANALYTICS_LOGGED and the run is marked SUCCEEDED (specification
scenario 5). -/
theorem pipeline_all_stages_succeed :
    finalJobStatus (processVideoJob allOkHandlers JobStatus.RECEIVED) =
      some JobStatus.ANALYTICS_LOGGED ∧
    finalRunStatus (processVideoJob allOkHandlers JobStatus.RECEIVED) =
      some RunStatus.SUCCEEDED := by
  decide

-- ============================================================================
-- CLAIM C4
-- ============================================================================

/-- C4: for every pair of job statuses, canTransitionTo returns true exactly
when the target appears in the literal transition-table row of the source
status as enumerated in specification section 4.1, and false for every pair
the table does not list. -/
theorem c4_canTransitionTo_matches_spec_table :
    ∀ s t : JobStatus, canTransitionTo s t = true ↔ t ∈ specTransitionTable s := by
  decide

-- ============================================================================
-- CLAIM C8
-- ============================================================================

/-- C8: canRerun holds precisely for ANALYTICS_LOGGED, FAILED_VALIDATION,
FAILED, REQUIRES_MANUAL_REVIEW and NEEDS_USER_INPUT, and is false for the
other ten statuses; in particular it is false for BLOCKED_ENTITLEMENT and
true for FAILED_VALIDATION. -/
theorem c8_canRerun_exact :
    (∀ s : JobStatus, canRerun s = true ↔
      (s = JobStatus.ANALYTICS_LOGGED ∨ s = JobStatus.FAILED_VALIDATION ∨
       s = JobStatus.FAILED ∨ s = JobStatus.REQUIRES_MANUAL_REVIEW ∨
       s = JobStatus.NEEDS_USER_INPUT)) ∧
    canRerun JobStatus.BLOCKED_ENTITLEMENT = false ∧
    canRerun JobStatus.FAILED_VALIDATION = true := by
  decide

-- ============================================================================
-- CLAIM C1
-- ============================================================================

/-- C1 counterexample: the claim says createJobRun succeeds when the job is
in a terminal state and rejects when it is in a non-terminal non-user-action
state; the code does the opposite on both concrete inputs shown here. For
status FAILED (terminal) the call is rejected, and for status INGESTED
(non-terminal, non-user-action) the call succeeds. -/
theorem c1_createJobRun_guard_cx :
    isTerminalState JobStatus.FAILED = true ∧
    okValue (createJobRun JobStatus.FAILED 0) = none ∧
    isTerminalState JobStatus.INGESTED = false ∧
    requiresUserAction JobStatus.INGESTED = false ∧
    okValue (createJobRun JobStatus.INGESTED 0) =
      some { run_number := 1, status := RunStatus.PENDING } := by
  decide

/-- C1 (amended): createJobRun rejects the request exactly when the job
status is terminal, and for every non-terminal status, including in-flight
pipeline statuses, it succeeds and creates the run with run_number one more
than the count of existing runs and status PENDING. -/
theorem c1_createJobRun_amended :
    ∀ (s : JobStatus) (n : Nat),
      (okValue (createJobRun s n) =
          some { run_number := n + 1, status := RunStatus.PENDING } ↔
        isTerminalState s = false) ∧
      (okValue (createJobRun s n) = none ↔ isTerminalState s = true) := by
  intro s n
  cases h : isTerminalState s <;> simp [createJobRun, okValue, h]

-- ============================================================================
-- CLAIM C5
-- ============================================================================

/-- C5 counterexample: the regenerate route changes the stored job status of
a FAILED job directly to RECEIVED even though FAILED to RECEIVED is not an
edge of the transition table, so not every stored status change goes through
a validated transition. -/
theorem c5_direct_status_reset_cx :
    okValue (regenerateRunPost JobStatus.FAILED 1) =
      some (JobStatus.RECEIVED, { run_number := 2, status := RunStatus.PENDING }) ∧
    canTransitionTo JobStatus.FAILED JobStatus.RECEIVED = false := by
  decide

/-- C5 (amended): updateJobStatus is the validated path: it persists exactly
the transitions the table permits and rejects every other target with the
descriptive invalid-transition error that lists the permitted targets; but
the regenerate route additionally resets every rerunnable job directly to
RECEIVED without any transition validation. -/
theorem c5_amended_status_mutation :
    (∀ c t : JobStatus, canTransitionTo c t = true →
      updateJobStatus c t = Except.ok t) ∧
    (∀ c t : JobStatus, canTransitionTo c t = false →
      updateJobStatus c t = Except.error (invalidTransitionMessage c t)) ∧
    (∀ s : JobStatus, canRerun s = true →
      regenerateRunPost s 0 =
        Except.ok (JobStatus.RECEIVED, { run_number := 1, status := RunStatus.PENDING })) := by
  refine ⟨?_, ?_, ?_⟩ <;> decide

/-- Witness for the amended C5 theorem at concrete inputs: the permitted
transition RECEIVED to VALIDATED is persisted, the non-permitted target
FAILED from RECEIVED is rejected with the descriptive message, and a FAILED
job is reset to RECEIVED by the regenerate route. -/
theorem c5_amended_status_mutation_witness :
    updateJobStatus JobStatus.RECEIVED JobStatus.VALIDATED =
      Except.ok JobStatus.VALIDATED ∧
    updateJobStatus JobStatus.RECEIVED JobStatus.FAILED =
      Except.error (invalidTransitionMessage JobStatus.RECEIVED JobStatus.FAILED) ∧
    regenerateRunPost JobStatus.FAILED 0 =
      Except.ok (JobStatus.RECEIVED, { run_number := 1, status := RunStatus.PENDING }) :=
  ⟨c5_amended_status_mutation.1 JobStatus.RECEIVED JobStatus.VALIDATED (by decide),
   c5_amended_status_mutation.2.1 JobStatus.RECEIVED JobStatus.FAILED (by decide),
   c5_amended_status_mutation.2.2 JobStatus.FAILED (by decide)⟩

-- ============================================================================
-- CLAIM C10
-- ============================================================================

/-- C10 counterexample: a run that already finished FAILED is not immutable:
a subsequent updateRunStatus call overwrites its status with RUNNING and its
started_at timestamp. -/
theorem c10_finished_run_mutated_cx :
    finishedRunExample.status = RunStatus.FAILED ∧
    (updateRunStatus finishedRunExample 9 RunStatus.RUNNING none).status =
      RunStatus.RUNNING ∧
    (updateRunStatus finishedRunExample 9 RunStatus.RUNNING none).started_at =
      some 9 := by
  decide

/-- C10 (amended): updateRunStatus never checks the current run status, so
finished runs are not immutable: every call overwrites the status, sets
started_at when called with RUNNING and no error message, sets finished_at
when called with a finishing status, and overwrites the error message when
one is given, regardless of whether the run is already SUCCEEDED, FAILED or
CANCELLED. -/
theorem c10_amended_updateRunStatus_unguarded :
    ∀ (r : JobRunState) (now : Nat) (s : RunStatus) (e : Option String),
      (updateRunStatus r now s e).status = s ∧
      (updateRunStatus r now s e).started_at =
        (if s == RunStatus.RUNNING && e.isNone then some now else r.started_at) ∧
      (updateRunStatus r now s e).finished_at =
        (if s == RunStatus.SUCCEEDED || s == RunStatus.FAILED
            || s == RunStatus.CANCELLED then some now else r.finished_at) ∧
      (updateRunStatus r now s e).error_message =
        (if e.isSome then e else r.error_message) := by
  intro r now s e
  exact updateRunStatus_fields r now s e

-- ============================================================================
-- CLAIM C2 (counterexample)
-- ============================================================================

/-- C2 counterexample: for a run whose ASR stage fails definitively with
LOW_QUALITY_TRANSCRIPT the precedence computes NEEDS_USER_INPUT, but that
status is never applied to the job: the job is INGESTED at that point and
INGESTED to NEEDS_USER_INPUT is not a permitted transition, so the attempted
update throws, the stage is re-run, and the job finally lands in FAILED. -/
theorem c2_low_quality_not_applied_cx :
    computeFailureStatus PipelineStep.ASR ErrorCode.LOW_QUALITY_TRANSCRIPT =
      JobStatus.NEEDS_USER_INPUT ∧
    canTransitionTo JobStatus.INGESTED JobStatus.NEEDS_USER_INPUT = false ∧
    finalJobStatus (processVideoJob
        (failingAt PipelineStep.ASR ErrorCode.LOW_QUALITY_TRANSCRIPT ("low quality"))
        JobStatus.RECEIVED) = some JobStatus.FAILED := by
  decide

-- ============================================================================
-- CLAIM C3
-- ============================================================================

/-- C3: failing input for the claim that the orchestrator never propagates an
unhandled exception. When every invocation of the VALIDATION handler throws,
the catch path exhausts its retries and then calls updateJobStatus with
FAILED, which is not a permitted transition from RECEIVED; that exception
escapes the run function, the run is left with status RUNNING forever, and
the handler was invoked three times. -/
theorem c3_unhandled_exception_escapes :
    escapedMessage (processVideoJob (throwingHandlers ("boom")) JobStatus.RECEIVED) =
      some (invalidTransitionMessage JobStatus.RECEIVED JobStatus.FAILED) ∧
    (escapedState (processVideoJob (throwingHandlers ("boom")) JobStatus.RECEIVED)).map
        (fun st => st.run.status) = some RunStatus.RUNNING ∧
    (escapedState (processVideoJob (throwingHandlers ("boom")) JobStatus.RECEIVED)).map
        (fun st => invocationCount st PipelineStep.VALIDATION) = some 3 := by
  decide

-- ============================================================================
-- CLAIM C6 (counterexample)
-- ============================================================================

/-- C6 counterexample: the claim says a stage failing with a non-retryable
code is never retried (zero retries, one invocation). When INGESTION fails
with the non-retryable INVALID_INPUT, the computed terminal status FAILED is
not a permitted transition from VALIDATED, the resulting exception is caught
by the retry loop, and the INGESTION handler ends up invoked three times. -/
theorem c6_nonretryable_reinvoked_cx :
    isRetryableError ErrorCode.INVALID_INPUT = false ∧
    (escapedState (processVideoJob
        (failingAt PipelineStep.INGESTION ErrorCode.INVALID_INPUT ("bad input"))
        JobStatus.RECEIVED)).map
      (fun st => invocationCount st PipelineStep.INGESTION) = some 3 := by
  decide

-- ============================================================================
-- CLAIM C7
-- ============================================================================

/-- C7: failing input for the scenario in which QA fails with
HIGH_RISK_CONTENT. The precedence computes REQUIRES_MANUAL_REVIEW, but the
job is DRAFTED when QA runs and DRAFTED to REQUIRES_MANUAL_REVIEW is not a
permitted transition, so the update throws; after the catch path exhausts its
retries the job is driven to FAILED instead, and the subsequent createJobRun
call is rejected because FAILED is terminal. -/
theorem c7_qa_high_risk_bug :
    computeFailureStatus PipelineStep.QA ErrorCode.HIGH_RISK_CONTENT =
      JobStatus.REQUIRES_MANUAL_REVIEW ∧
    canTransitionTo JobStatus.DRAFTED JobStatus.REQUIRES_MANUAL_REVIEW = false ∧
    finalJobStatus (processVideoJob
        (failingAt PipelineStep.QA ErrorCode.HIGH_RISK_CONTENT ("high risk"))
        JobStatus.RECEIVED) = some JobStatus.FAILED ∧
    okValue (createJobRun JobStatus.FAILED 1) = none := by
  decide

-- ============================================================================
-- CLAIM C9 (counterexample)
-- ============================================================================

/-- C9 counterexample: a VALIDATION handler that throws is not treated
identically to one returning an INTERNAL_ERROR StepResult. The throwing
handler is invoked three times and ends in an unhandled invalid-transition
exception with the run left RUNNING, while the INTERNAL_ERROR StepResult
handler is invoked once and drives the job to FAILED_VALIDATION with the run
FAILED. -/
theorem c9_throw_vs_internal_cx :
    (escapedState (processVideoJob
        (throwingAt PipelineStep.VALIDATION ("kaput")) JobStatus.RECEIVED)).map
      (fun st => (invocationCount st PipelineStep.VALIDATION, st.run.status)) =
      some (3, RunStatus.RUNNING) ∧
    escapedMessage (processVideoJob
        (throwingAt PipelineStep.VALIDATION ("kaput")) JobStatus.RECEIVED) =
      some (invalidTransitionMessage JobStatus.RECEIVED JobStatus.FAILED) ∧
    (finalState (processVideoJob
        (failingAt PipelineStep.VALIDATION ErrorCode.INTERNAL_ERROR ("kaput"))
        JobStatus.RECEIVED)).map
      (fun st => (invocationCount st PipelineStep.VALIDATION, st.jobStatus,
        st.run.status)) =
      some (1, JobStatus.FAILED_VALIDATION, RunStatus.FAILED) := by
  decide

-- ============================================================================
-- CLAIM C2 (amended)
-- ============================================================================

/-- C2 (amended): on a definitive stage failure the terminal job status is
computed by exactly the stated precedence (VALIDATION first, then
QUOTA_EXCEEDED, HIGH_RISK_CONTENT, LOW_QUALITY_TRANSCRIPT, else FAILED), and
PROVIDED that computed status is a permitted transition from the current job
status it is applied to the job, the run is marked FAILED with the error
message, and the driver loop stops with no further stage executing; when the
computed status is not permitted, the updateJobStatus exception is caught by
the retry loop instead (see the counterexample). -/
theorem c2_amended_failure_precedence :
    (∀ (step : PipelineStep) (code : ErrorCode),
      computeFailureStatus step code = specFailureStatus step code) ∧
    (∀ (h : Handlers) (step : PipelineStep) (st : PipeState) (r : StepResult),
      h step 1 = HandlerOutcome.returns r →
      r.success = false →
      isRetryableError (r.error_code.getD ErrorCode.UNKNOWN_ERROR) = false →
      canTransitionTo st.jobStatus
        (computeFailureStatus step (r.error_code.getD ErrorCode.UNKNOWN_ERROR)) = true →
      ∃ stf : PipeState,
        runAttempts h step 1 DEFAULT_RETRY_CONFIG.max_attempts st =
          Except.ok (StageOutcome.failure step
            (r.error_code.getD ErrorCode.UNKNOWN_ERROR) r.error_message, stf) ∧
        stf.jobStatus =
          computeFailureStatus step (r.error_code.getD ErrorCode.UNKNOWN_ERROR) ∧
        stf.run.status = RunStatus.FAILED ∧
        stf.run.error_message =
          (if r.error_message.isSome then r.error_message else st.run.error_message) ∧
        stf.currentStep.status = StepStatus.FAILED ∧
        stf.currentStep.error_code =
          some (r.error_code.getD ErrorCode.UNKNOWN_ERROR) ∧
        stf.currentStep.error_detail = r.error_message) ∧
    (∀ (h : Handlers) (step : PipelineStep) (rest : List PipelineStep)
      (st : PipeState) (sp : PipelineStep) (code : ErrorCode)
      (msg : Option String) (stf : PipeState),
      runAttempts h step 1 DEFAULT_RETRY_CONFIG.max_attempts (createRunStep st step) =
        Except.ok (StageOutcome.failure sp code msg, stf) →
      runPipeline h (step :: rest) st = Except.ok (RunReturn.failed sp code msg, stf)) := by
  refine ⟨by decide, ?_, ?_⟩
  · intro h step st r hret hsucc hnr hperm
    refine ⟨_, runAttempts_definitive_failure h step st 1 2 r hret hsucc hnr hperm,
      rfl, updateRunStatus_status _ _ _ _, ?_, rfl, rfl, rfl⟩
    exact updateRunStatus_error_message _ _ _ _
  · intro h step rest st sp code msg stf heq
    simp only [runPipeline, heq]

/-- Witness for the amended C2 theorem: the INGESTION stage failing
definitively with QUOTA_EXCEEDED while the job is VALIDATED computes
BLOCKED_ENTITLEMENT, which is permitted from VALIDATED, and the stage loop
returns the failure with the job at BLOCKED_ENTITLEMENT and the run FAILED. -/
theorem c2_amended_failure_precedence_witness :
    (runAttempts
        (failingAt PipelineStep.INGESTION ErrorCode.QUOTA_EXCEEDED ("quota hit"))
        PipelineStep.INGESTION 1 DEFAULT_RETRY_CONFIG.max_attempts
        (exampleState JobStatus.VALIDATED)).toOption.map
      (fun p => (p.1, p.2.jobStatus, p.2.run.status)) =
      some (StageOutcome.failure PipelineStep.INGESTION ErrorCode.QUOTA_EXCEEDED
          (some ("quota hit")),
        JobStatus.BLOCKED_ENTITLEMENT, RunStatus.FAILED) := by
  obtain ⟨stf, heq, hjob, hrun, -, -, -, -⟩ :=
    c2_amended_failure_precedence.2.1
      (failingAt PipelineStep.INGESTION ErrorCode.QUOTA_EXCEEDED ("quota hit"))
      PipelineStep.INGESTION (exampleState JobStatus.VALIDATED)
      (failStepResult PipelineStep.INGESTION ErrorCode.QUOTA_EXCEEDED ("quota hit"))
      rfl rfl (by decide) (by decide)
  rw [heq]
  simp [Except.toOption, hjob, hrun]
  exact ⟨⟨rfl, rfl⟩, rfl⟩

-- ============================================================================
-- CLAIM C6 (amended)
-- ============================================================================

/-- C6 (amended): the retry branch of the step-execution loop fires exactly
on a retryable error code with the attempt below max_attempts = 3, marking
the RunStep RETRYING with the attempt incremented and first sleeping
min(1000 * 2 ^ (attempt - 1), 30000) milliseconds (1000 and 2000 for
attempts 1 and 2) before re-invoking the handler; a definitive failure marks
the RunStep FAILED with the code and detail, and — PROVIDED the computed
terminal status is a permitted transition from the current job status — a
non-retryable code yields zero retries (a single invocation). A stage
failing with GENERATION_FAILED on every attempt yields exactly 3 attempts
(specification scenario 4), and VALIDATION failing with the non-retryable
INVALID_INPUT yields one invocation (scenario 1). When the computed status
is not a permitted transition, the caught exception causes further handler
invocations (see the counterexample). -/
theorem c6_amended_retry_policy :
    (∀ a : Nat, calculateRetryDelay a = min (1000 * 2 ^ (a - 1)) 30000) ∧
    calculateRetryDelay 1 = 1000 ∧
    calculateRetryDelay 2 = 2000 ∧
    calculateRetryDelay 3 = 4000 ∧
    calculateRetryDelay 10 = 30000 ∧
    (∀ (h : Handlers) (step : PipelineStep) (st : PipeState) (a fuel : Nat)
      (r : StepResult),
      h step a = HandlerOutcome.returns r →
      r.success = false →
      isRetryableError (r.error_code.getD ErrorCode.UNKNOWN_ERROR) = true →
      a < DEFAULT_RETRY_CONFIG.max_attempts →
      runAttempts h step a (fuel + 1) st =
        runAttempts h step (a + 1) fuel
          (recordWait (logStep (recordInvocation st step a)
            { st.currentStep with
                status := StepStatus.RETRYING, attempt := a + 1,
                error_code := some (r.error_code.getD ErrorCode.UNKNOWN_ERROR),
                error_detail := r.error_message })
            (calculateRetryDelay a))) ∧
    (∀ (h : Handlers) (step : PipelineStep) (st : PipeState) (r : StepResult),
      h step 1 = HandlerOutcome.returns r →
      r.success = false →
      isRetryableError (r.error_code.getD ErrorCode.UNKNOWN_ERROR) = false →
      canTransitionTo st.jobStatus
        (computeFailureStatus step (r.error_code.getD ErrorCode.UNKNOWN_ERROR)) = true →
      ∃ stf : PipeState,
        runAttempts h step 1 DEFAULT_RETRY_CONFIG.max_attempts st =
          Except.ok (StageOutcome.failure step
            (r.error_code.getD ErrorCode.UNKNOWN_ERROR) r.error_message, stf) ∧
        stf.invocations = st.invocations ++ [(step, 1)] ∧
        stf.currentStep.status = StepStatus.FAILED ∧
        stf.currentStep.error_code =
          some (r.error_code.getD ErrorCode.UNKNOWN_ERROR) ∧
        stf.currentStep.error_detail = r.error_message ∧
        stf.waits = st.waits) ∧
    (finalState (processVideoJob
        (failingAt PipelineStep.INSIGHTS ErrorCode.GENERATION_FAILED ("gen failed"))
        JobStatus.RECEIVED)).map
      (fun st => (st.jobStatus, invocationCount st PipelineStep.INSIGHTS,
        st.currentStep.attempt, st.currentStep.status, st.waits)) =
      some (JobStatus.FAILED, 3, 3, StepStatus.FAILED, [1000, 2000]) ∧
    (finalState (processVideoJob
        (failingAt PipelineStep.VALIDATION ErrorCode.INVALID_INPUT ("invalid"))
        JobStatus.RECEIVED)).map
      (fun st => (st.jobStatus, invocationCount st PipelineStep.VALIDATION)) =
      some (JobStatus.FAILED_VALIDATION, 1) := by
  refine ⟨fun a => rfl, rfl, rfl, rfl, rfl, ?_, ?_, by decide, by decide⟩
  · intro h step st a fuel r hret hsucc hretry hlt
    simp only [runAttempts]
    rw [hret]
    simp only [tryBody, hsucc, Bool.false_eq_true, if_false, hretry,
      eq_self_iff_true, true_and, recordInvocation, logStep, recordWait]
    rw [if_pos hlt]
  · intro h step st r hret hsucc hnr hperm
    exact ⟨_, runAttempts_definitive_failure h step st 1 2 r hret hsucc hnr hperm,
      rfl, rfl, rfl, rfl, rfl⟩

/-- Witness for the amended C6 theorem: the INSIGHTS stage failing with the
retryable GENERATION_FAILED at attempt 1 is marked RETRYING with attempt 2
and the loop sleeps 1000 milliseconds before re-entering. -/
theorem c6_amended_retry_policy_witness :
    runAttempts
        (failingAt PipelineStep.INSIGHTS ErrorCode.GENERATION_FAILED ("gen failed"))
        PipelineStep.INSIGHTS 1 3 (exampleState JobStatus.TRANSCRIBED) =
      runAttempts
        (failingAt PipelineStep.INSIGHTS ErrorCode.GENERATION_FAILED ("gen failed"))
        PipelineStep.INSIGHTS 2 2
        (recordWait (logStep
          (recordInvocation (exampleState JobStatus.TRANSCRIBED) PipelineStep.INSIGHTS 1)
          { (exampleState JobStatus.TRANSCRIBED).currentStep with
              status := StepStatus.RETRYING, attempt := 2,
              error_code := some ErrorCode.GENERATION_FAILED,
              error_detail := some ("gen failed") })
          (calculateRetryDelay 1)) :=
  c6_amended_retry_policy.2.2.2.2.2.1
    (failingAt PipelineStep.INSIGHTS ErrorCode.GENERATION_FAILED ("gen failed"))
    PipelineStep.INSIGHTS (exampleState JobStatus.TRANSCRIBED) 1 2
    (failStepResult PipelineStep.INSIGHTS ErrorCode.GENERATION_FAILED ("gen failed"))
    rfl rfl (by decide) (by decide)

-- ============================================================================
-- CLAIM C9 (amended)
-- ============================================================================

/-- C9 (amended): a handler that throws on every invocation is retried up to
max_attempts regardless of retryability — three invocations with the 1000
and 2000 millisecond backoffs — and on exhaustion the RunStep is marked
FAILED with INTERNAL_ERROR and the thrown message; the job is then driven to
FAILED directly, NOT through the stage and error-code precedence, provided
FAILED is a permitted transition from the current job status, and the run is
marked FAILED. This differs from a handler returning an INTERNAL_ERROR
StepResult, which is invoked exactly once and mapped through the precedence:
at the DRAFTING stage the two agree on the final statuses but differ in
invocation count (3 against 1), and at VALIDATION they differ in outcome
entirely (see the counterexample). -/
theorem c9_amended_throwing_handler :
    (∀ (h : Handlers) (step : PipelineStep) (st : PipeState) (m : String),
      (∀ a : Nat, h step a = HandlerOutcome.throws m) →
      canTransitionTo st.jobStatus JobStatus.FAILED = true →
      ∃ stf : PipeState,
        runAttempts h step 1 DEFAULT_RETRY_CONFIG.max_attempts st =
          Except.ok (StageOutcome.failure step ErrorCode.INTERNAL_ERROR (some m), stf) ∧
        stf.invocations = st.invocations ++ [(step, 1), (step, 2), (step, 3)] ∧
        stf.waits = st.waits ++ [calculateRetryDelay 1, calculateRetryDelay 2] ∧
        stf.currentStep.status = StepStatus.FAILED ∧
        stf.currentStep.error_code = some ErrorCode.INTERNAL_ERROR ∧
        stf.currentStep.error_detail = some m ∧
        stf.jobStatus = JobStatus.FAILED ∧
        stf.run.status = RunStatus.FAILED ∧
        stf.run.error_message = some m) ∧
    (finalState (processVideoJob
        (throwingAt PipelineStep.DRAFTING ("broken")) JobStatus.RECEIVED)).map
      (fun st => (invocationCount st PipelineStep.DRAFTING, st.jobStatus,
        st.run.status)) = some (3, JobStatus.FAILED, RunStatus.FAILED) ∧
    (finalState (processVideoJob
        (failingAt PipelineStep.DRAFTING ErrorCode.INTERNAL_ERROR ("broken"))
        JobStatus.RECEIVED)).map
      (fun st => (invocationCount st PipelineStep.DRAFTING, st.jobStatus,
        st.run.status)) = some (1, JobStatus.FAILED, RunStatus.FAILED) := by
  refine ⟨?_, by decide, by decide⟩
  intro h step st m hthrow hperm
  have e1 := runAttempts_throw_retry h step 1 2 st m (hthrow 1) (by decide)
  have e2 := runAttempts_throw_retry h step 2 1
    (recordWait (recordInvocation st step 1) (calculateRetryDelay 1)) m
    (hthrow 2) (by decide)
  have e3 := runAttempts_throw_exhaust h step 0
    (recordWait (recordInvocation
      (recordWait (recordInvocation st step 1) (calculateRetryDelay 1)) step 2)
      (calculateRetryDelay 2)) m (hthrow 3) hperm
  refine ⟨_, (e1.trans (e2.trans e3)), ?_, ?_, rfl, rfl, rfl, rfl,
    updateRunStatus_status _ _ _ _, ?_⟩
  · simp [recordWait, recordInvocation, List.append_assoc]
  · simp [recordWait, recordInvocation, List.append_assoc]
  · simp [updateRunStatus_error_message, recordWait, recordInvocation]

/-- Witness for the amended C9 theorem: at the INSIGHTS stage with the job at
TRANSCRIBED, handlers that always throw yield a FAILED stage outcome with
INTERNAL_ERROR, the job at FAILED and the run FAILED. -/
theorem c9_amended_throwing_handler_witness :
    (runAttempts (throwingHandlers ("stuck")) PipelineStep.INSIGHTS 1
        DEFAULT_RETRY_CONFIG.max_attempts
        (exampleState JobStatus.TRANSCRIBED)).toOption.map
      (fun p => (p.1, p.2.jobStatus, p.2.run.status)) =
      some (StageOutcome.failure PipelineStep.INSIGHTS ErrorCode.INTERNAL_ERROR
          (some ("stuck")),
        JobStatus.FAILED, RunStatus.FAILED) := by
  obtain ⟨stf, heq, -, -, -, -, -, hjob, hrun, -⟩ :=
    c9_amended_throwing_handler.1 (throwingHandlers ("stuck"))
      PipelineStep.INSIGHTS (exampleState JobStatus.TRANSCRIBED) ("stuck")
      (fun a => rfl) (by decide)
  rw [heq]
  simp [Except.toOption, hjob, hrun]
